import Mathlib

/-!
Verification of the board state and interaction engine of the awall
repository.  The definitions below are a shallow embedding of
src/app/page.tsx: entity records, the drag and resize commit
computations of PictureFrame.handleMouseMove and
WindowFrame.handleMouseMove, the Entity Store mutation helpers
(removePicture, updatePicturePosition, ...), the localStorage
persistence effects, startup rehydration, the file upload validation
of handleFileSelect, and handleClearAll.  Pixel quantities are
embedded as Int, file sizes as Nat, and the three localStorage keys
as a three field Storage record whose slots can be missing, corrupt
(JSON.parse throws) or hold structured parsed data.
-/

namespace AWall

/-- Wall texture enumeration, src/app/page.tsx line 6. -/
inductive WallTexture where
  | noTexture | brick | wood | plaster | concrete | lines
deriving DecidableEq

/-- Window style enumeration, src/app/page.tsx line 7. -/
inductive WindowStyle where
  | rectangular | arched | circular | gothic | bay
deriving DecidableEq

/-- WallSettings, src/app/page.tsx lines 9-12. -/
structure WallSettings where
  backgroundColor : String
  texture : WallTexture
deriving DecidableEq

/-- defaultSettings, src/app/page.tsx lines 30-33. -/
def defaultSettings : WallSettings :=
  { backgroundColor := "#FEF3C7", texture := WallTexture.lines }

/-- Constant, src/app/page.tsx line 35. -/
def DEFAULT_PICTURE_SIZE : Int := 250

/-- Constant, src/app/page.tsx line 36. -/
def MIN_SIZE : Int := 150

/-- Constant, src/app/page.tsx line 37. -/
def MAX_SIZE : Int := 500

/-- PictureWithPosition, src/app/page.tsx lines 14-19: a GeneratedImage
(id, url, prompt) extended with position and size. -/
structure PictureWithPosition where
  id : String
  url : String
  prompt : String
  x : Int
  y : Int
  width : Int
  height : Int
deriving DecidableEq

/-- WindowWithPosition, src/app/page.tsx lines 21-28. -/
structure WindowWithPosition where
  id : String
  x : Int
  y : Int
  width : Int
  height : Int
  style : WindowStyle
deriving DecidableEq

/-! ## Interaction Controller commits

PictureFrame.handleMouseMove (lines 915-927) and
WindowFrame.handleMouseMove (lines 1065-1077) compute identical
clamped geometry, so one definition serves both. -/

/-- One drag-move commit: the coordinates passed to updatePosition.
Source lines 917-918 and 1067-1068:
newX = Math.max(0, Math.min(e.clientX - dragStart.x, window.innerWidth - width)),
newY analogous with heights. -/
def dragCommit (dragStartX dragStartY entityWidth entityHeight
    innerWidth innerHeight clientX clientY : Int) : Int × Int :=
  (max 0 (min (clientX - dragStartX) (innerWidth - entityWidth)),
   max 0 (min (clientY - dragStartY) (innerHeight - entityHeight)))

/-- One resize-move commit: the size passed to updateSize.
Source lines 921-924 and 1071-1074:
deltaX = e.clientX - resizeStart.x;
newWidth = Math.max(MIN_SIZE, Math.min(MAX_SIZE, resizeStart.width + deltaX));
newHeight analogous with y. -/
def resizeCommit (resizeStartX resizeStartY resizeStartWidth resizeStartHeight
    clientX clientY : Int) : Int × Int :=
  let deltaX := clientX - resizeStartX
  let deltaY := clientY - resizeStartY
  (max MIN_SIZE (min MAX_SIZE (resizeStartWidth + deltaX)),
   max MIN_SIZE (min MAX_SIZE (resizeStartHeight + deltaY)))

/-! ## Entity Store mutation helpers, src/app/page.tsx lines 248-278 -/

/-- removePicture, lines 248-250: prev.filter((pic) => pic.id !== id). -/
def removePicture (id : String) (prev : List PictureWithPosition) :
    List PictureWithPosition :=
  prev.filter (fun pic => pic.id != id)

/-- updatePicturePosition, lines 252-256:
prev.map((pic) => (pic.id === id ? { ...pic, x, y } : pic)). -/
def updatePicturePosition (id : String) (x y : Int)
    (prev : List PictureWithPosition) : List PictureWithPosition :=
  prev.map (fun pic => if pic.id = id then { pic with x := x, y := y } else pic)

/-- updatePictureSize, lines 258-262. -/
def updatePictureSize (id : String) (width height : Int)
    (prev : List PictureWithPosition) : List PictureWithPosition :=
  prev.map (fun pic =>
    if pic.id = id then { pic with width := width, height := height } else pic)

/-- removeWindow, lines 264-266. -/
def removeWindow (id : String) (prev : List WindowWithPosition) :
    List WindowWithPosition :=
  prev.filter (fun win => win.id != id)

/-- updateWindowPosition, lines 268-272. -/
def updateWindowPosition (id : String) (x y : Int)
    (prev : List WindowWithPosition) : List WindowWithPosition :=
  prev.map (fun win => if win.id = id then { win with x := x, y := y } else win)

/-- updateWindowSize, lines 274-278. -/
def updateWindowSize (id : String) (width height : Int)
    (prev : List WindowWithPosition) : List WindowWithPosition :=
  prev.map (fun win =>
    if win.id = id then { win with width := width, height := height } else win)

/-! ## Persistence Adapter

The load effect (lines 59-103) reads the keys wall-pictures,
wall-windows, wall-settings; each read is wrapped in its own
try/catch so a JSON.parse failure leaves that slot at its default.
A stored picture or window may lack x/y/width/height (older
snapshots), modelled by Option fields; the load maps getD style
backfill over the parsed array, positions drawn from Math.random
modelled as an explicit stream of values indexed by list position. -/

/-- Shape of one entry of a parsed wall-pictures snapshot; the
geometry fields may be absent in older snapshots (the pic.x ?? ...
backfill at lines 65-71). -/
structure StoredPicture where
  id : String
  url : String
  prompt : String
  x : Option Int
  y : Option Int
  width : Option Int
  height : Option Int
deriving DecidableEq

/-- Shape of one entry of a parsed wall-windows snapshot (lines 82-88). -/
structure StoredWindow where
  id : String
  x : Option Int
  y : Option Int
  width : Option Int
  height : Option Int
  style : WindowStyle
deriving DecidableEq

/-- What JSON.stringify writes for a fully populated picture: every
field present (lines 106-112 serialize the live PictureWithPosition
records, which always carry all fields). -/
def serializePicture (p : PictureWithPosition) : StoredPicture :=
  { id := p.id, url := p.url, prompt := p.prompt,
    x := some p.x, y := some p.y,
    width := some p.width, height := some p.height }

/-- JSON.stringify of a fully populated window (lines 115-121). -/
def serializeWindow (w : WindowWithPosition) : StoredWindow :=
  { id := w.id, x := some w.x, y := some w.y,
    width := some w.width, height := some w.height, style := w.style }

/-- Backfill of one parsed picture, lines 65-71: missing x or y get a
random in-viewport value (passed in as rx, ry), missing sizes get
DEFAULT_PICTURE_SIZE. -/
def rehydratePicture (rx ry : Int) (s : StoredPicture) : PictureWithPosition :=
  { id := s.id, url := s.url, prompt := s.prompt,
    x := s.x.getD rx, y := s.y.getD ry,
    width := s.width.getD DEFAULT_PICTURE_SIZE,
    height := s.height.getD DEFAULT_PICTURE_SIZE }

/-- Backfill of one parsed window, lines 82-88. -/
def rehydrateWindow (rx ry : Int) (s : StoredWindow) : WindowWithPosition :=
  { id := s.id, x := s.x.getD rx, y := s.y.getD ry,
    width := s.width.getD DEFAULT_PICTURE_SIZE,
    height := s.height.getD DEFAULT_PICTURE_SIZE, style := s.style }

/-- parsed.map over a pictures snapshot, consuming one fresh pair of
random coordinates per entry (index i into the stream rnd). -/
def rehydratePicturesFrom (rnd : Nat → Int × Int) :
    List StoredPicture → Nat → List PictureWithPosition
  | [], _ => []
  | s :: rest, i =>
      rehydratePicture (rnd i).1 (rnd i).2 s ::
        rehydratePicturesFrom rnd rest (i + 1)

/-- The pictures load map, lines 65-72. -/
def rehydratePictures (rnd : Nat → Int × Int) (l : List StoredPicture) :
    List PictureWithPosition :=
  rehydratePicturesFrom rnd l 0

/-- parsed.map over a windows snapshot. -/
def rehydrateWindowsFrom (rnd : Nat → Int × Int) :
    List StoredWindow → Nat → List WindowWithPosition
  | [], _ => []
  | s :: rest, i =>
      rehydrateWindow (rnd i).1 (rnd i).2 s ::
        rehydrateWindowsFrom rnd rest (i + 1)

/-- The windows load map, lines 82-89. -/
def rehydrateWindows (rnd : Nat → Int × Int) (l : List StoredWindow) :
    List WindowWithPosition :=
  rehydrateWindowsFrom rnd l 0

/-- One localStorage key: absent (getItem returns null / after
removeItem), corrupt (present but JSON.parse throws), or a parsed
value. -/
inductive Slot (α : Type) where
  | missing
  | corrupt
  | stored (val : α)
deriving DecidableEq

/-- The three localStorage keys used by the app: wall-pictures,
wall-windows, wall-settings. -/
structure Storage where
  pictures : Slot (List StoredPicture)
  windows : Slot (List StoredWindow)
  settings : Slot WallSettings
deriving DecidableEq

/-- The in-memory state the three slots rehydrate into. -/
structure AppState where
  pictures : List PictureWithPosition
  windows : List WindowWithPosition
  wallSettings : WallSettings
deriving DecidableEq

/-- Load of the wall-pictures key, lines 60-76: absent key leaves the
initial [] state, a JSON.parse failure is caught (console.error) and
also leaves [], parsed data is backfilled. -/
def loadPicturesSlot (rnd : Nat → Int × Int) :
    Slot (List StoredPicture) → List PictureWithPosition
  | Slot.missing => []
  | Slot.corrupt => []
  | Slot.stored l => rehydratePictures rnd l

/-- Load of the wall-windows key, lines 78-93. -/
def loadWindowsSlot (rnd : Nat → Int × Int) :
    Slot (List StoredWindow) → List WindowWithPosition
  | Slot.missing => []
  | Slot.corrupt => []
  | Slot.stored l => rehydrateWindows rnd l

/-- Load of the wall-settings key, lines 95-102: absent or corrupt
leaves defaultSettings. -/
def loadSettingsSlot : Slot WallSettings → WallSettings
  | Slot.missing => defaultSettings
  | Slot.corrupt => defaultSettings
  | Slot.stored s => s

/-- The whole mount effect, lines 59-103: three independent reads. -/
def loadAll (rndP rndW : Nat → Int × Int) (st : Storage) : AppState :=
  { pictures := loadPicturesSlot rndP st.pictures,
    windows := loadWindowsSlot rndW st.windows,
    wallSettings := loadSettingsSlot st.settings }

/-- Persist effect for pictures, lines 106-112: setItem with the full
serialized snapshot when non-empty, removeItem when empty. -/
def persistPictures (ps : List PictureWithPosition) (st : Storage) : Storage :=
  if ps.length > 0 then
    { st with pictures := Slot.stored (ps.map serializePicture) }
  else
    { st with pictures := Slot.missing }

/-- Persist effect for windows, lines 115-121. -/
def persistWindows (ws : List WindowWithPosition) (st : Storage) : Storage :=
  if ws.length > 0 then
    { st with windows := Slot.stored (ws.map serializeWindow) }
  else
    { st with windows := Slot.missing }

/-- Persist effect for settings, lines 124-126: always a plain write. -/
def persistSettings (s : WallSettings) (st : Storage) : Storage :=
  { st with settings := Slot.stored s }

/-! ## File upload validation, src/app/page.tsx lines 128-146 -/

/-- Embedding of the JavaScript String.prototype.startsWith used at
line 133: the candidate string begins with the given characters. -/
def strStartsWith (s pre : String) : Bool :=
  List.isPrefixOf pre.data s.data

/-- The fields of the selected File that handleFileSelect inspects. -/
structure FileInfo where
  name : String
  type : String
  size : Nat
deriving DecidableEq

/-- The component state handleFileSelect can touch. -/
structure UploadUIState where
  pictures : List PictureWithPosition
  error : String
  selectedFile : Option FileInfo
deriving DecidableEq

/-- handleFileSelect, lines 128-146: the media type check runs first,
then the 10 MB size check; only a file passing both is stored in
selectedFile (with the error cleared).  No file read happens here. -/
def handleFileSelect (file : FileInfo) (st : UploadUIState) : UploadUIState :=
  if !(strStartsWith file.type "image/") then
    { st with error := "Please select an image file" }
  else if file.size > 10 * 1024 * 1024 then
    { st with error := "Image file size must be less than 10MB" }
  else
    { st with selectedFile := some file, error := "" }

/-! ## Clear all, src/app/page.tsx lines 293-300 -/

/-- handleClearAll after the user confirms: setPictures([]),
setWindows([]), removeItem on wall-pictures and wall-windows.
wallSettings is not touched and the wall-settings key is not removed. -/
def handleClearAll (app : AppState) (st : Storage) : AppState × Storage :=
  ({ app with pictures := [], windows := [] },
   { st with pictures := Slot.missing, windows := Slot.missing })

/-! ## Helper lemmas -/

/-- A map whose function is pointwise related to the identity produces
a Forall₂ related list. -/
lemma forall2_map_self {α : Type} (R : α → α → Prop) (f : α → α)
    (h : ∀ a, R a (f a)) :
    ∀ l : List α, List.Forall₂ R l (l.map f)
  | [] => List.Forall₂.nil
  | a :: l => List.Forall₂.cons (h a) (forall2_map_self R f h l)

/-- Mapping a function that fixes every member is the identity. -/
lemma map_eq_self_of_fix {α : Type} (f : α → α) :
    ∀ l : List α, (∀ a ∈ l, f a = a) → l.map f = l := by
  intro l h
  induction l with
  | nil => rfl
  | cons a t ih =>
      have ha := h a (List.mem_cons_self a t)
      have ht : ∀ b ∈ t, f b = b := fun b hb => h b (List.mem_cons_of_mem a hb)
      simp [List.map_cons, ha, ih ht]

/-- Filtering by a predicate every member satisfies is the identity. -/
lemma filter_eq_self_of {α : Type} (p : α → Bool) :
    ∀ l : List α, (∀ a ∈ l, p a = true) → l.filter p = l := by
  intro l h
  induction l with
  | nil => rfl
  | cons a t ih =>
      have ha := h a (List.mem_cons_self a t)
      have ht : ∀ b ∈ t, p b = true := fun b hb => h b (List.mem_cons_of_mem a hb)
      simp [List.filter_cons, ha, ih ht]

/-- Serialization of a fully populated picture rehydrates to itself,
whatever random coordinates the backfill would have used. -/
lemma rehydrate_serializePicture (rx ry : Int) (p : PictureWithPosition) :
    rehydratePicture rx ry (serializePicture p) = p := rfl

/-- Serialization of a fully populated window rehydrates to itself. -/
lemma rehydrate_serializeWindow (rx ry : Int) (w : WindowWithPosition) :
    rehydrateWindow rx ry (serializeWindow w) = w := rfl

/-- The pictures load map undoes serialization from any stream index. -/
lemma rehydratePicturesFrom_serialize (rnd : Nat → Int × Int)
    (ps : List PictureWithPosition) :
    ∀ i : Nat, rehydratePicturesFrom rnd (ps.map serializePicture) i = ps := by
  induction ps with
  | nil => intro i; rfl
  | cons p rest ih =>
      intro i
      simp [List.map_cons, rehydratePicturesFrom,
        rehydrate_serializePicture, ih]

/-- The windows load map undoes serialization from any stream index. -/
lemma rehydrateWindowsFrom_serialize (rnd : Nat → Int × Int)
    (ws : List WindowWithPosition) :
    ∀ i : Nat, rehydrateWindowsFrom rnd (ws.map serializeWindow) i = ws := by
  induction ws with
  | nil => intro i; rfl
  | cons w rest ih =>
      intro i
      simp [List.map_cons, rehydrateWindowsFrom,
        rehydrate_serializeWindow, ih]

/-! ## Concrete fixtures for witnesses and counterexamples -/

/-- A fully populated picture entity. -/
def p1 : PictureWithPosition :=
  { id := "p1", url := "http://x/img.png", prompt := "a cat",
    x := 10, y := 20, width := 250, height := 250 }

/-- A fully populated window entity. -/
def w1 : WindowWithPosition :=
  { id := "w1", x := 30, y := 40, width := 250, height := 250,
    style := WindowStyle.arched }

/-- A constant random-coordinate stream. -/
def rnd0 : Nat → Int × Int := fun _ => (0, 0)

/-- Fresh storage: no key present. -/
def st0 : Storage :=
  { pictures := Slot.missing, windows := Slot.missing,
    settings := Slot.missing }

/-- Storage whose wall-pictures key holds data JSON.parse rejects,
while the other two keys hold good data. -/
def stCorruptP : Storage :=
  { pictures := Slot.corrupt,
    windows := Slot.stored [serializeWindow w1],
    settings := Slot.stored defaultSettings }

/-- Initial upload dialog state. -/
def ui0 : UploadUIState := { pictures := [], error := "", selectedFile := none }

/-- A 12 MB file whose media type is not an image type. -/
def bigTextFile : FileInfo :=
  { name := "big.txt", type := "text/plain", size := 12 * 1024 * 1024 }

/-- A 12 MB file whose media type is an image type. -/
def bigImageFile : FileInfo :=
  { name := "big.png", type := "image/png", size := 12 * 1024 * 1024 }

/-! ## Claim theorems -/

/-- Claim C1: every resize-move commit, for any starting geometry and
any pointer delta, passes a width and height to the size update that
both lie in the closed interval from 150 to 500. -/
theorem resizeCommit_bounds (sx sy sw sh cx cy : Int) :
    150 ≤ (resizeCommit sx sy sw sh cx cy).1 ∧
    (resizeCommit sx sy sw sh cx cy).1 ≤ 500 ∧
    150 ≤ (resizeCommit sx sy sw sh cx cy).2 ∧
    (resizeCommit sx sy sw sh cx cy).2 ≤ 500 := by
  simp only [resizeCommit, MIN_SIZE, MAX_SIZE]
  refine ⟨?_, ?_, ?_, ?_⟩ <;> omega

/-- Claim C2, counterexample: on a 100 by 100 viewport an entity of
width 250 dragged with anchor (0,0) and pointer (50,50) commits x = 0,
which does not satisfy x less than or equal to viewportWidth minus
width (that bound is -150 there), refuting the claim for every
viewport size. -/
theorem dragCommit_out_of_range :
    ¬ ((dragCommit 0 0 250 250 100 100 50 50).1 ≤ 100 - 250) := by decide

/-- Claim C2, amended: every drag-move commit satisfies 0 ≤ x and
0 ≤ y unconditionally, and x ≤ viewportWidth - width whenever the
entity fits horizontally (width ≤ viewportWidth), and likewise
y ≤ viewportHeight - height whenever height ≤ viewportHeight. -/
theorem dragCommit_bounds (dx dy w h vw vh cx cy : Int) :
    0 ≤ (dragCommit dx dy w h vw vh cx cy).1 ∧
    0 ≤ (dragCommit dx dy w h vw vh cx cy).2 ∧
    (w ≤ vw → (dragCommit dx dy w h vw vh cx cy).1 ≤ vw - w) ∧
    (h ≤ vh → (dragCommit dx dy w h vw vh cx cy).2 ≤ vh - h) := by
  simp only [dragCommit]
  refine ⟨?_, ?_, ?_, ?_⟩ <;> omega

/-- Claim C2, witness: on a 1000 by 800 viewport, an entity of size
250 by 250 fits, and the commit for anchor (5,5), pointer (400,300)
respects both upper bounds. -/
theorem dragCommit_bounds_witness :
    ((250 : Int) ≤ 1000 ∧ (dragCommit 5 5 250 250 1000 800 400 300).1 ≤ 1000 - 250) ∧
    ((250 : Int) ≤ 800 ∧ (dragCommit 5 5 250 250 1000 800 400 300).2 ≤ 800 - 250) :=
  ⟨⟨by decide, (dragCommit_bounds 5 5 250 250 1000 800 400 300).2.2.1 (by decide)⟩,
   ⟨by decide, (dragCommit_bounds 5 5 250 250 1000 800 400 300).2.2.2 (by decide)⟩⟩

/-- Claim C3, counterexample: from starting size 250 by 250 a resize
drag with delta (400, -50) commits height 200, not the claimed
clamped 150 (250 - 50 = 200 lies inside the clamp interval). -/
theorem resize_delta_counterexample :
    (resizeCommit 0 0 250 250 400 (-50)).2 ≠ 150 := by decide

/-- Claim C3, amended: a resize gesture starting at width 250 with the
default square starting size and resize-drag delta (400, -50) commits
width 500 (clamped at MAX_SIZE) and height 200 (not clamped). -/
theorem resize_delta_result :
    resizeCommit 0 0 DEFAULT_PICTURE_SIZE DEFAULT_PICTURE_SIZE 400 (-50) =
      (MAX_SIZE, 200) := by decide

/-- Claim C4: persisting a non-empty collection and loading its slot
back yields an entity-for-entity identical collection (all fields,
including url, prompt and style), for any random backfill stream and
any prior storage contents. -/
theorem store_roundtrip (rndP rndW : Nat → Int × Int) (st : Storage)
    (ps : List PictureWithPosition) (ws : List WindowWithPosition)
    (hp : ps ≠ []) (hw : ws ≠ []) :
    loadPicturesSlot rndP (persistPictures ps st).pictures = ps ∧
    loadWindowsSlot rndW (persistWindows ws st).windows = ws := by
  constructor
  · have hlen : ps.length > 0 := List.length_pos.mpr hp
    simp only [persistPictures, if_pos hlen, loadPicturesSlot,
      rehydratePictures, rehydratePicturesFrom_serialize]
  · have hlen : ws.length > 0 := List.length_pos.mpr hw
    simp only [persistWindows, if_pos hlen, loadWindowsSlot,
      rehydrateWindows, rehydrateWindowsFrom_serialize]

/-- Claim C4, witness: round trip of the singleton collections. -/
theorem store_roundtrip_witness :
    loadPicturesSlot rnd0 (persistPictures [p1] st0).pictures = [p1] ∧
    loadWindowsSlot rnd0 (persistWindows [w1] st0).windows = [w1] :=
  store_roundtrip rnd0 rnd0 st0 [p1] [w1] (by decide) (by decide)

/-- Claim C5: the persistence step deletes a collection slot when the
collection is empty (Slot.missing, the removeItem branch) and writes
the full serialized snapshot when it is non-empty; the other two
slots are untouched either way. -/
theorem persist_empty_deletes (ps : List PictureWithPosition)
    (ws : List WindowWithPosition) (st : Storage) :
    (ps = [] → (persistPictures ps st).pictures = Slot.missing) ∧
    (ps ≠ [] →
      (persistPictures ps st).pictures = Slot.stored (ps.map serializePicture)) ∧
    (ws = [] → (persistWindows ws st).windows = Slot.missing) ∧
    (ws ≠ [] →
      (persistWindows ws st).windows = Slot.stored (ws.map serializeWindow)) ∧
    (persistPictures ps st).windows = st.windows ∧
    (persistPictures ps st).settings = st.settings ∧
    (persistWindows ws st).pictures = st.pictures ∧
    (persistWindows ws st).settings = st.settings := by
  refine ⟨?_, ?_, ?_, ?_, ?_, ?_, ?_, ?_⟩
  · intro h; subst h; rfl
  · intro h
    have hlen : ps.length > 0 := List.length_pos.mpr h
    simp only [persistPictures, if_pos hlen]
  · intro h; subst h; rfl
  · intro h
    have hlen : ws.length > 0 := List.length_pos.mpr h
    simp only [persistWindows, if_pos hlen]
  · unfold persistPictures; split <;> rfl
  · unfold persistPictures; split <;> rfl
  · unfold persistWindows; split <;> rfl
  · unfold persistWindows; split <;> rfl

/-- Claim C5, witness: the empty pictures list deletes the slot and
the singleton list writes its snapshot. -/
theorem persist_empty_deletes_witness :
    (persistPictures [] st0).pictures = Slot.missing ∧
    (persistPictures [p1] st0).pictures = Slot.stored ([p1].map serializePicture) :=
  ⟨(persist_empty_deletes [] [] st0).1 rfl,
   (persist_empty_deletes [p1] [] st0).2.1 (by decide)⟩

/-- Claim C6: remove on either collection keeps exactly the entities
whose id differs from the given id (so it removes exactly the
matching ones), and is the identity when no entity carries that id. -/
theorem remove_spec (id : String) (ps : List PictureWithPosition)
    (ws : List WindowWithPosition) :
    (∀ p, p ∈ removePicture id ps ↔ p ∈ ps ∧ p.id ≠ id) ∧
    ((∀ p ∈ ps, p.id ≠ id) → removePicture id ps = ps) ∧
    (∀ w, w ∈ removeWindow id ws ↔ w ∈ ws ∧ w.id ≠ id) ∧
    ((∀ w ∈ ws, w.id ≠ id) → removeWindow id ws = ws) := by
  refine ⟨?_, ?_, ?_, ?_⟩
  · intro p
    simp [removePicture, List.mem_filter, bne_iff_ne]
  · intro h
    exact filter_eq_self_of _ ps (fun a ha => bne_iff_ne.mpr (h a ha))
  · intro w
    simp [removeWindow, List.mem_filter, bne_iff_ne]
  · intro h
    exact filter_eq_self_of _ ws (fun a ha => bne_iff_ne.mpr (h a ha))

/-- Claim C6, witness: removing an absent id from the singleton
collections is a no-op, and membership matches the filter condition. -/
theorem remove_spec_witness :
    (p1 ∈ removePicture "zzz" [p1] ↔ p1 ∈ [p1] ∧ p1.id ≠ "zzz") ∧
    removePicture "zzz" [p1] = [p1] ∧
    removeWindow "zzz" [w1] = [w1] :=
  ⟨(remove_spec "zzz" [p1] [w1]).1 p1,
   (remove_spec "zzz" [p1] [w1]).2.1 (by decide),
   (remove_spec "zzz" [p1] [w1]).2.2.2 (by decide)⟩

/-- Pointwise effect of updatePosition on a picture: the matching
entity gets exactly x and y replaced, every other one is unchanged. -/
def PosUpdateRel (id : String) (x y : Int)
    (p q : PictureWithPosition) : Prop :=
  (p.id = id → q = { p with x := x, y := y }) ∧ (p.id ≠ id → q = p)

/-- Pointwise effect of updatePosition on a window. -/
def WinPosUpdateRel (id : String) (x y : Int)
    (w q : WindowWithPosition) : Prop :=
  (w.id = id → q = { w with x := x, y := y }) ∧ (w.id ≠ id → q = w)

/-- Claim C7: updatePosition relates input and output lists pointwise
and in order (same length, i-th output from i-th input): a matching
entity has exactly x and y replaced (id, width, height and content
fields kept), a non-matching entity is unchanged; when the id is
absent the whole collection is unchanged.  Both collections. -/
theorem updatePosition_spec (id : String) (x y : Int)
    (ps : List PictureWithPosition) (ws : List WindowWithPosition) :
    List.Forall₂ (PosUpdateRel id x y) ps (updatePicturePosition id x y ps) ∧
    ((∀ p ∈ ps, p.id ≠ id) → updatePicturePosition id x y ps = ps) ∧
    List.Forall₂ (WinPosUpdateRel id x y) ws (updateWindowPosition id x y ws) ∧
    ((∀ w ∈ ws, w.id ≠ id) → updateWindowPosition id x y ws = ws) := by
  refine ⟨?_, ?_, ?_, ?_⟩
  · refine forall2_map_self _ _ ?_ ps
    intro p
    constructor
    · intro hp; simp only [if_pos hp]
    · intro hp; simp only [if_neg hp]
  · intro h
    exact map_eq_self_of_fix _ ps (fun a ha => if_neg (h a ha))
  · refine forall2_map_self _ _ ?_ ws
    intro w
    constructor
    · intro hw; simp only [if_pos hw]
    · intro hw; simp only [if_neg hw]
  · intro h
    exact map_eq_self_of_fix _ ws (fun a ha => if_neg (h a ha))

/-- Claim C7, witness: on the singleton collections the pointwise
relation holds, and an absent id leaves both collections unchanged. -/
theorem updatePosition_spec_witness :
    List.Forall₂ (PosUpdateRel "zzz" 7 8) [p1]
      (updatePicturePosition "zzz" 7 8 [p1]) ∧
    updatePicturePosition "zzz" 7 8 [p1] = [p1] ∧
    updateWindowPosition "zzz" 7 8 [w1] = [w1] :=
  ⟨(updatePosition_spec "zzz" 7 8 [p1] [w1]).1,
   (updatePosition_spec "zzz" 7 8 [p1] [w1]).2.1 (by decide),
   (updatePosition_spec "zzz" 7 8 [p1] [w1]).2.2.2 (by decide)⟩

/-- Claim C8: the startup load treats the three slots independently
(each loaded field depends only on its own slot) and a parse failure
on a slot leaves that slot at its empty default ([] for collections,
defaultSettings for settings) while the other two load as usual. -/
theorem load_slots_independent (rndP rndW : Nat → Int × Int) (st : Storage) :
    (loadAll rndP rndW st).pictures = loadPicturesSlot rndP st.pictures ∧
    (loadAll rndP rndW st).windows = loadWindowsSlot rndW st.windows ∧
    (loadAll rndP rndW st).wallSettings = loadSettingsSlot st.settings ∧
    (st.pictures = Slot.corrupt → (loadAll rndP rndW st).pictures = []) ∧
    (st.windows = Slot.corrupt → (loadAll rndP rndW st).windows = []) ∧
    (st.settings = Slot.corrupt →
      (loadAll rndP rndW st).wallSettings = defaultSettings) := by
  refine ⟨rfl, rfl, rfl, ?_, ?_, ?_⟩ <;>
    intro h <;> simp [loadAll, h, loadPicturesSlot, loadWindowsSlot,
      loadSettingsSlot]

/-- Claim C8, witness: with a corrupt wall-pictures slot next to good
window and settings data, pictures come up empty while the windows
and settings slots still load their stored values. -/
theorem load_slots_independent_witness :
    (loadAll rnd0 rnd0 stCorruptP).pictures = [] ∧
    (loadAll rnd0 rnd0 stCorruptP).windows =
      loadWindowsSlot rnd0 stCorruptP.windows ∧
    (loadAll rnd0 rnd0 stCorruptP).wallSettings =
      loadSettingsSlot stCorruptP.settings :=
  ⟨(load_slots_independent rnd0 rnd0 stCorruptP).2.2.2.1 rfl,
   (load_slots_independent rnd0 rnd0 stCorruptP).2.1,
   (load_slots_independent rnd0 rnd0 stCorruptP).2.2.1⟩

/-- Claim C9, counterexample: a 12 MB file whose media type is
text/plain is rejected, but with the media-type message, so the
claimed size message is not set for every oversized file. -/
theorem handleFileSelect_size_counterexample :
    bigTextFile.size > 10 * 1024 * 1024 ∧
    (handleFileSelect bigTextFile ui0).error ≠
      "Image file size must be less than 10MB" := by decide

/-- Claim C9, amended: a file whose media type begins with image/ but
whose size exceeds 10 MB is rejected before any read with the message
about the 10MB limit, adding no entity and leaving selectedFile
unchanged; a file whose media type does not begin with image/ is
rejected before any read with the message asking for an image file,
likewise adding no entity and leaving selectedFile unchanged. -/
theorem handleFileSelect_rejects (f : FileInfo) (st : UploadUIState) :
    (strStartsWith f.type "image/" = true → f.size > 10 * 1024 * 1024 →
      (handleFileSelect f st).error = "Image file size must be less than 10MB" ∧
      (handleFileSelect f st).pictures = st.pictures ∧
      (handleFileSelect f st).selectedFile = st.selectedFile) ∧
    (strStartsWith f.type "image/" = false →
      (handleFileSelect f st).error = "Please select an image file" ∧
      (handleFileSelect f st).pictures = st.pictures ∧
      (handleFileSelect f st).selectedFile = st.selectedFile) := by
  constructor
  · intro htype hsize
    simp [handleFileSelect, htype, hsize]
  · intro htype
    simp [handleFileSelect, htype]

/-- Claim C9, witness: the 12 MB image file is rejected with the size
message and no state beyond the error changes. -/
theorem handleFileSelect_rejects_witness :
    (handleFileSelect bigImageFile ui0).error =
      "Image file size must be less than 10MB" ∧
    (handleFileSelect bigImageFile ui0).pictures = ui0.pictures ∧
    (handleFileSelect bigImageFile ui0).selectedFile = ui0.selectedFile :=
  (handleFileSelect_rejects bigImageFile ui0).1 (by decide) (by decide)

/-- Claim C10: clearing the wall empties both collections and marks
both of their storage slots missing, while the in-memory wall
settings and the wall-settings storage slot are untouched; the
persistence passes that follow the now-empty collections also leave
the settings slot alone. -/
theorem clearAll_spec (app : AppState) (st : Storage) :
    (handleClearAll app st).1.pictures = [] ∧
    (handleClearAll app st).1.windows = [] ∧
    (handleClearAll app st).1.wallSettings = app.wallSettings ∧
    (handleClearAll app st).2.pictures = Slot.missing ∧
    (handleClearAll app st).2.windows = Slot.missing ∧
    (handleClearAll app st).2.settings = st.settings ∧
    (persistWindows (handleClearAll app st).1.windows
      (persistPictures (handleClearAll app st).1.pictures
        (handleClearAll app st).2)).settings = st.settings :=
  ⟨rfl, rfl, rfl, rfl, rfl, rfl, rfl⟩

end AWall
